import Mathlib

/-!
Verification development for the `airp2` role-play retrieval pipeline.

Shallow embedding of the Python sources under `src/`:
* `services/helpers.py` (`parse_chapter_no`, `normalize_entities`)
* `services/guardrails.py` (`filter_spoilers`, `has_enough_evidence`,
  `append_citation_footer`)
* `services/session_state.py` (`SessionState`, `append_turn`,
  `apply_runtime_updates`, `remember_entities`)
* `services/query_understanding.py` (effective unlocked chapter)
* `api/rp_query_api.py` (`RPQueryService.respond`, the no-novel branch of
  the HTTP respond endpoint, `query_context` unlocked-chapter flow)
* `services/pipeline_jobs.py` (`PipelineJobsService` startup cleanup,
  `start`, and the worker's status transitions)
* `utils/llm_client.py` (`_SharedRateLimiter`)
* `step4_vectorize.py` (`_extract_chapter_no`, `_create_point`,
  `_build_point_id`, `vectorize_chapter`, `run_step4` status logic)

Python machine-level details are modelled as follows: `int` becomes `Int`
(`Nat` where the value is provably non-negative), `float` scores and
rate-limit intervals become `ℚ` (the verified properties only use order
and `max`, which floating point computes exactly on these expressions),
strings become Lean `String`, and Python `None`-able values become
`Option`.  Wall-clock timestamps are threaded as opaque `String`
arguments.
-/

/-! ## Digit helpers shared by `helpers.parse_chapter_no` and step 4 -/

/-- Numeric value of a decimal-digit character list, most significant first
(the value `int(s)` produces on a string of ASCII digits). -/
def natOfDigits (l : List Char) : Nat :=
  l.foldl (fun acc c => acc * 10 + (c.toNat - Char.toNat '0')) 0

/-- First maximal run of decimal digits in a character list: the text
captured by the regex group `(\d+)` in `re.search`, `none` when the input
has no digit. -/
def firstDigitRun : List Char → Option (List Char)
  | [] => none
  | c :: rest =>
      if c.isDigit then some (c :: rest.takeWhile Char.isDigit)
      else firstDigitRun rest

/-- Python `int(s)` on a string: strip surrounding whitespace, allow one
optional sign, then require a non-empty digit string; `none` models a
`ValueError`. -/
def parseIntChars (l : List Char) : Option Int :=
  let stripped := ((l.dropWhile Char.isWhitespace).reverse.dropWhile Char.isWhitespace).reverse
  match stripped with
  | [] => none
  | c :: rest =>
      if c = '-' then
        if rest ≠ [] ∧ rest.all Char.isDigit then some (-(natOfDigits rest : Int)) else none
      else if c = '+' then
        if rest ≠ [] ∧ rest.all Char.isDigit then some ((natOfDigits rest : Int)) else none
      else
        if (c :: rest).all Char.isDigit then some ((natOfDigits (c :: rest) : Int)) else none

/-! ## `services/helpers.py` — `parse_chapter_no` -/

/-- A Python value that may reach `parse_chapter_no`: `None`, an `int`, or
a string. -/
inductive PyChapterValue where
  | pynone : PyChapterValue
  | pyint (n : Int) : PyChapterValue
  | pystr (s : String) : PyChapterValue
deriving DecidableEq, Repr

/-- `helpers.parse_chapter_no`: `None` stays unknown, an `int` passes
through, a string of digits is parsed whole, otherwise the first digit run
found by `re.search(r"(\d+)", text)` is parsed; no digit gives `None`. -/
def parse_chapter_no : PyChapterValue → Option Int
  | .pynone => none
  | .pyint n => some n
  | .pystr s =>
      if s.data ≠ [] ∧ s.data.all Char.isDigit then
        some ((natOfDigits s.data : Int))
      else
        match firstDigitRun s.data with
        | none => none
        | some run => some ((natOfDigits run : Int))

/-! ## `services/models.py` — `RetrievalCandidate` -/

/-- `models.RetrievalCandidate`, the unified candidate record produced by
the retrievers.  Float-valued scores are modelled as rationals. -/
structure RetrievalCandidate where
  source_type : String
  source_id : String
  text : String
  chapter : Option String := none
  chapter_no : Option Int := none
  scene_index : Option Int := none
  chapter_title : String := ""
  scene_summary : String := ""
  event_summary : String := ""
  characters : List String := []
  location : String := ""
  semantic_score : ℚ := 0
  entity_overlap : ℚ := 0
  narrative_fit : ℚ := 0
  recency_in_session : ℚ := 0
  final_score : ℚ := 0
deriving DecidableEq, Repr

/-! ## `services/guardrails.py` — `Guardrails.filter_spoilers` -/

/-- The chapter number `filter_spoilers` resolves for a candidate: the
candidate's own `chapter_no`, or, when that is `None`, the number
`parse_chapter_no` extracts from the candidate's `chapter` id. -/
def resolvedChapterNo (c : RetrievalCandidate) : Option Int :=
  match c.chapter_no with
  | some n => some n
  | none =>
      parse_chapter_no (match c.chapter with
        | none => .pynone
        | some s => .pystr s)

/-- The loop condition of `filter_spoilers` for one candidate: non-scene
candidates are kept, and scene candidates are kept when the resolved
chapter number is unknown or does not exceed the unlocked bound. -/
def spoilerKeep (ub : Int) (c : RetrievalCandidate) : Bool :=
  if c.source_type ≠ "scene" then true
  else
    match resolvedChapterNo c with
    | none => true
    | some n => n ≤ ub

/-- `Guardrails.filter_spoilers`: identity when `unlocked_chapter` is
`None`, otherwise the append loop keeping exactly the candidates that pass
`spoilerKeep`. -/
def filter_spoilers (candidates : List RetrievalCandidate) (unlocked_chapter : Option Int) :
    List RetrievalCandidate :=
  match unlocked_chapter with
  | none => candidates
  | some ub => candidates.filter (spoilerKeep ub)

/-- Keep-condition stated from the spec's words: a candidate is removed
exactly when it is a scene whose resolved chapter number is known and
exceeds the unlocked chapter. -/
def spoilerSpecKeep (U : Int) (c : RetrievalCandidate) : Prop :=
  ¬(c.source_type = "scene" ∧ ∃ n, resolvedChapterNo c = some n ∧ U < n)

instance (U : Int) (c : RetrievalCandidate) : Decidable (spoilerSpecKeep U c) := by
  unfold spoilerSpecKeep
  exact inferInstance

lemma spoilerKeep_iff (U : Int) (c : RetrievalCandidate) :
    spoilerKeep U c = true ↔ spoilerSpecKeep U c := by
  unfold spoilerKeep spoilerSpecKeep
  by_cases hs : c.source_type = "scene"
  · simp only [hs, ne_eq, not_true_eq_false, if_false, true_and]
    cases h : resolvedChapterNo c with
    | none =>
        simp only [decide_eq_true_eq]
        constructor
        · rintro _ ⟨m, hm, _⟩
          simp at hm
        · intro _
          trivial
    | some n =>
        simp only [decide_eq_true_eq]
        constructor
        · rintro hn ⟨m, hm, hUm⟩
          rw [Option.some_inj] at hm
          omega
        · intro hno
          by_contra hgt
          exact hno ⟨n, rfl, by omega⟩
  · simp [hs]

/-- C1: with a non-None unlocked chapter `U`, `filter_spoilers` removes
exactly the scene candidates whose resolved chapter number is known and
exceeds `U` (an order-preserving sublist of the input remains); unknown
chapter numbers and non-scene candidates are always kept, every surviving
scene candidate with a known chapter number satisfies the spoiler
boundary `n ≤ U`, and a `None` unlocked chapter returns the input
unchanged. -/
theorem spoiler_filter_removes_exactly_late_scenes
    (cs : List RetrievalCandidate) (U : Int) :
    filter_spoilers cs none = cs ∧
    filter_spoilers cs (some U) = cs.filter (fun c => decide (spoilerSpecKeep U c)) ∧
    List.Sublist (filter_spoilers cs (some U)) cs ∧
    (∀ c ∈ filter_spoilers cs (some U),
      (c.source_type = "scene" → ∀ n, resolvedChapterNo c = some n → n ≤ U)) ∧
    (∀ c ∈ cs, (c.source_type ≠ "scene" ∨ resolvedChapterNo c = none) →
      c ∈ filter_spoilers cs (some U)) := by
  refine ⟨rfl, ?_, ?_, ?_, ?_⟩
  · show cs.filter (spoilerKeep U) = _
    apply List.filter_congr
    intro x _
    rw [Bool.eq_iff_iff, spoilerKeep_iff, decide_eq_true_eq]
  · exact List.filter_sublist cs
  · intro c hc hscene n hres
    have hk : spoilerKeep U c = true := (List.mem_filter.mp hc).2
    have hspec := (spoilerKeep_iff U c).mp hk
    by_contra hgt
    exact hspec ⟨hscene, n, hres, by omega⟩
  · intro c hc hkeep
    refine List.mem_filter.mpr ⟨hc, (spoilerKeep_iff U c).mpr ?_⟩
    rintro ⟨hscene, n, hres, _⟩
    rcases hkeep with h | h
    · exact h hscene
    · rw [h] at hres
      cases hres

/-- An early scene candidate (chapter 1) for concrete evaluation. -/
def demoSceneEarly : RetrievalCandidate :=
  { source_type := "scene", source_id := "chapter_0001:2", text := "early",
    chapter := some "chapter_0001", chapter_no := some 1, scene_index := some 2 }

/-- A late scene candidate whose chapter number must be parsed from its id. -/
def demoSceneLate : RetrievalCandidate :=
  { source_type := "scene", source_id := "chapter_0020:1", text := "late",
    chapter := some "chapter_0020", chapter_no := none, scene_index := some 1 }

/-- A profile candidate, which the spoiler filter must never remove. -/
def demoProfile : RetrievalCandidate :=
  { source_type := "profile", source_id := "许七安", text := "profile body" }

theorem spoiler_filter_removes_exactly_late_scenes_witness :
    (filter_spoilers [demoSceneEarly, demoSceneLate, demoProfile] none
        = [demoSceneEarly, demoSceneLate, demoProfile] ∧
      filter_spoilers [demoSceneEarly, demoSceneLate, demoProfile] (some 10)
          = ([demoSceneEarly, demoSceneLate, demoProfile].filter
              (fun c => decide (spoilerSpecKeep 10 c))) ∧
      List.Sublist (filter_spoilers [demoSceneEarly, demoSceneLate, demoProfile] (some 10))
        [demoSceneEarly, demoSceneLate, demoProfile] ∧
      (∀ c ∈ filter_spoilers [demoSceneEarly, demoSceneLate, demoProfile] (some 10),
        (c.source_type = "scene" → ∀ n, resolvedChapterNo c = some n → n ≤ 10)) ∧
      (∀ c ∈ [demoSceneEarly, demoSceneLate, demoProfile],
        (c.source_type ≠ "scene" ∨ resolvedChapterNo c = none) →
          c ∈ filter_spoilers [demoSceneEarly, demoSceneLate, demoProfile] (some 10))) ∧
    filter_spoilers [demoSceneEarly, demoSceneLate, demoProfile] (some 10)
      = [demoSceneEarly, demoProfile] :=
  ⟨spoiler_filter_removes_exactly_late_scenes [demoSceneEarly, demoSceneLate, demoProfile] 10,
    by decide⟩

/-! ## `services/helpers.py` — `normalize_entities` -/

/-- Python `str.strip()`: drop whitespace from both ends (character-level,
so that concrete instances compute by kernel reduction). -/
def pyStrip (s : String) : String :=
  String.mk (((s.data.dropWhile Char.isWhitespace).reverse.dropWhile Char.isWhitespace).reverse)

/-- Accumulator loop of `normalize_entities`: strip each value, skip empty
strings and strings already emitted, append the rest in order.  The
Python `seen` set always equals the set of elements of the output built so
far, so membership in the accumulator is the faithful test. -/
def normalizeEntitiesLoop : List String → List String → List String
  | [], acc => acc
  | v :: rest, acc =>
      let item := pyStrip v
      if item = "" then normalizeEntitiesLoop rest acc
      else if item ∈ acc then normalizeEntitiesLoop rest acc
      else normalizeEntitiesLoop rest (acc ++ [item])

/-- `helpers.normalize_entities` on a list of strings (the call sites in
`session_state.py` and `query_understanding.py` pass lists of strings;
`None` entries, which the loop skips, do not arise there). -/
def normalize_entities (values : List String) : List String :=
  normalizeEntitiesLoop values []

/-! ## `services/session_state.py` -/

/-- One dialogue turn as written by `append_turn` (`ts` is the wall-clock
timestamp string, threaded as an argument). -/
structure Turn where
  role : String
  content : String
  ts : String
deriving DecidableEq, Repr

/-- `session_state.SessionState`. -/
structure SessionState where
  session_id : String
  max_unlocked_chapter : Int := 0
  active_characters : List String := []
  current_scene : String := ""
  long_term_summary : String := ""
  turns : List Turn := []
  recent_entities : List String := []
  updated_at : String := ""
deriving DecidableEq, Repr

/-- Python `l[-n:]`: the suffix of the last `n` elements. -/
def takeLast (n : Nat) (l : List α) : List α :=
  l.drop (l.length - n)

/-- `SessionStateStore.append_turn`: append the new turn, then truncate to
the most recent 20 turns when the list has grown beyond 20. -/
def append_turn (s : SessionState) (role content now : String) : SessionState :=
  let turns1 := s.turns ++ [⟨role, content, now⟩]
  { s with turns := if 20 < turns1.length then takeLast 20 turns1 else turns1 }

/-- `SessionStateStore.apply_runtime_updates`: fold a runtime unlocked
chapter into the session maximum (max-monotonic), replace active
characters (normalised) and the current scene when provided. -/
def apply_runtime_updates (s : SessionState) (unlocked_chapter : Option Int)
    (active_characters : Option (List String)) (current_scene : Option String) :
    SessionState :=
  let s1 := match unlocked_chapter with
    | none => s
    | some u => { s with max_unlocked_chapter := max u s.max_unlocked_chapter }
  let s2 := match active_characters with
    | none => s1
    | some ac => { s1 with active_characters := normalize_entities ac }
  match current_scene with
  | none => s2
  | some sc => { s2 with current_scene := sc }

/-- `SessionStateStore.remember_entities`: merge, normalise (dedupe while
preserving order), and keep the most recent 30 entries. -/
def remember_entities (s : SessionState) (entities : List String) : SessionState :=
  { s with recent_entities :=
      takeLast 30 (normalize_entities (s.recent_entities ++ entities)) }

lemma takeLast_length_le (n : Nat) (l : List α) : (takeLast n l).length ≤ n := by
  simp only [takeLast, List.length_drop]
  omega

lemma takeLast_suffix (n : Nat) (l : List α) : takeLast n l <:+ l :=
  List.drop_suffix _ _

lemma normalizeEntitiesLoop_decomp (values : List String) :
    ∀ acc, ∃ t, normalizeEntitiesLoop values acc = acc ++ t ∧
      List.Sublist t (values.map pyStrip) := by
  induction values with
  | nil =>
      intro acc
      exact ⟨[], by simp [normalizeEntitiesLoop], by simp⟩
  | cons v rest ih =>
      intro acc
      by_cases h1 : pyStrip v = ""
      · obtain ⟨t, ht, hs⟩ := ih acc
        exact ⟨t, by simp [normalizeEntitiesLoop, h1, ht], hs.cons _⟩
      · by_cases h2 : pyStrip v ∈ acc
        · obtain ⟨t, ht, hs⟩ := ih acc
          exact ⟨t, by simp [normalizeEntitiesLoop, h1, h2, ht], hs.cons _⟩
        · obtain ⟨t, ht, hs⟩ := ih (acc ++ [pyStrip v])
          refine ⟨pyStrip v :: t, ?_, hs.cons₂ _⟩
          simp only [normalizeEntitiesLoop, h1, h2, if_false, ite_false]
          rw [ht, List.append_assoc]
          rfl
  
lemma normalizeEntitiesLoop_nodup (values : List String) :
    ∀ acc, acc.Nodup → (normalizeEntitiesLoop values acc).Nodup := by
  induction values with
  | nil =>
      intro acc h
      simpa [normalizeEntitiesLoop] using h
  | cons v rest ih =>
      intro acc h
      by_cases h1 : pyStrip v = ""
      · simpa [normalizeEntitiesLoop, h1] using ih acc h
      · by_cases h2 : pyStrip v ∈ acc
        · simpa [normalizeEntitiesLoop, h1, h2] using ih acc h
        · have hacc : (acc ++ [pyStrip v]).Nodup := by
            simp [List.nodup_append, h, h2]
          simpa [normalizeEntitiesLoop, h1, h2] using ih (acc ++ [pyStrip v]) hacc

lemma normalize_entities_sublist (values : List String) :
    List.Sublist (normalize_entities values) (values.map pyStrip) := by
  obtain ⟨t, ht, hs⟩ := normalizeEntitiesLoop_decomp values []
  simpa [normalize_entities, ht] using hs

lemma normalize_entities_nodup (values : List String) :
    (normalize_entities values).Nodup :=
  normalizeEntitiesLoop_nodup values [] List.nodup_nil

/-- An operation of the session-memory interface considered by the rolling
bounds: one `append_turn` or one `remember_entities` call. -/
inductive SessionOp where
  | turnOp (role content now : String) : SessionOp
  | entitiesOp (entities : List String) : SessionOp

/-- Apply one session-memory operation. -/
def applySessionOp (s : SessionState) : SessionOp → SessionState
  | .turnOp role content now => append_turn s role content now
  | .entitiesOp entities => remember_entities s entities

/-- The state after each operation of a sequence. -/
def sessionTrace (s : SessionState) : List SessionOp → List SessionState
  | [] => []
  | op :: rest =>
      let s1 := applySessionOp s op
      s1 :: sessionTrace s1 rest

/-- The rolling session bounds: at most 20 turns, at most 30 recent
entities, no duplicate recent entities. -/
def sessionBounded (s : SessionState) : Prop :=
  s.turns.length ≤ 20 ∧ s.recent_entities.length ≤ 30 ∧ s.recent_entities.Nodup

lemma append_turn_turns_le (s : SessionState) (role content now : String) :
    (append_turn s role content now).turns.length ≤ 20 := by
  unfold append_turn
  dsimp only
  split
  · exact takeLast_length_le _ _
  · omega

lemma remember_entities_le (s : SessionState) (entities : List String) :
    (remember_entities s entities).recent_entities.length ≤ 30 :=
  takeLast_length_le _ _

lemma remember_entities_nodup (s : SessionState) (entities : List String) :
    (remember_entities s entities).recent_entities.Nodup :=
  ((takeLast_suffix 30 _).sublist).nodup
    (normalize_entities_nodup (s.recent_entities ++ entities))

lemma applySessionOp_bounded (s : SessionState) (op : SessionOp)
    (h : sessionBounded s) : sessionBounded (applySessionOp s op) := by
  cases op with
  | turnOp role content now =>
      exact ⟨append_turn_turns_le s role content now, h.2.1, h.2.2⟩
  | entitiesOp entities =>
      exact ⟨h.1, remember_entities_le s entities, remember_entities_nodup s entities⟩

/-- C9: starting from any state within the rolling bounds, every state
reached after each `append_turn` / `remember_entities` operation of an
arbitrary sequence stays within the bounds (≤ 20 turns, ≤ 30 recent
entities, no duplicate entities); moreover each `append_turn` keeps a
suffix (the most recent elements) of the old turns plus the new one, and
each `remember_entities` keeps a suffix of the order-preserving
deduplication of old entities followed by new ones. -/
theorem session_rolling_bounds (s : SessionState) (ops : List SessionOp)
    (role content now : String) (entities : List String)
    (h : sessionBounded s) :
    (∀ t ∈ sessionTrace s ops, sessionBounded t) ∧
    (append_turn s role content now).turns <:+ (s.turns ++ [⟨role, content, now⟩]) ∧
    (remember_entities s entities).recent_entities <:+
      normalize_entities (s.recent_entities ++ entities) ∧
    List.Sublist (normalize_entities (s.recent_entities ++ entities))
      ((s.recent_entities ++ entities).map pyStrip) := by
  refine ⟨?_, ?_, takeLast_suffix 30 _, normalize_entities_sublist _⟩
  · induction ops generalizing s with
    | nil => intro t ht; cases ht
    | cons op rest ih =>
        intro t ht
        have h1 : sessionBounded (applySessionOp s op) := applySessionOp_bounded s op h
        simp only [sessionTrace, List.mem_cons] at ht
        rcases ht with ht | ht
        any_goals subst ht
        · exact h1
        · exact ih _ h1 _ ht
  · unfold append_turn
    dsimp only
    split
    · exact takeLast_suffix 20 _
    · exact List.suffix_refl _

theorem session_rolling_bounds_witness :
    sessionBounded { session_id := "demo" } ∧
    ((∀ t ∈ sessionTrace { session_id := "demo" }
        [.entitiesOp ["许七安", " 许七安 ", "", "朱县令"], .turnOp "user" "你好" "t1"],
        sessionBounded t) ∧
      (append_turn { session_id := "demo" } "user" "hi" "t0").turns <:+
        ([] ++ [⟨"user", "hi", "t0"⟩]) ∧
      (remember_entities { session_id := "demo" } ["a", "a", " b "]).recent_entities <:+
        normalize_entities ([] ++ ["a", "a", " b "]) ∧
      List.Sublist (normalize_entities ([] ++ ["a", "a", " b "]))
        (([] ++ ["a", "a", " b "]).map pyStrip)) ∧
    (remember_entities { session_id := "demo" } ["a", "a", " b "]).recent_entities
      = ["a", "b"] :=
  ⟨by constructor <;> simp [sessionBounded],
    session_rolling_bounds { session_id := "demo" }
      [.entitiesOp ["许七安", " 许七安 ", "", "朱县令"], .turnOp "user" "你好" "t1"]
      "user" "hi" "t0" ["a", "a", " b "]
      (by constructor <;> simp [sessionBounded]),
    by decide⟩

/-! ## String helpers for `guardrails.py` and `rp_query_api.py` -/

/-- ASCII lower-casing of one character (Python `str.lower` restricted to
ASCII; every character of the strings compared below is either ASCII or
CJK, on which both agree). -/
def pyCharLower (c : Char) : Char :=
  if 65 ≤ c.toNat ∧ c.toNat ≤ 90 then Char.ofNat (c.toNat + 32) else c

/-- `s.lower()`. -/
def pyLower (s : String) : String :=
  String.mk (s.data.map pyCharLower)

/-- Python `pat in s`: substring containment. -/
def strContains (s pat : String) : Bool :=
  decide (pat.data <:+: s.data)

/-- Decimal digit character. -/
def digitChar (n : Nat) : Char := Char.ofNat (48 + n)

/-- Decimal digits of a natural number, via explicit fuel so that
concrete instances compute by kernel reduction. -/
def natDigitsAux : Nat → Nat → List Char
  | 0, _ => []
  | fuel + 1, n => if n < 10 then [digitChar n] else natDigitsAux fuel (n / 10) ++ [digitChar (n % 10)]

/-- Python `str(n)` for a natural number. -/
def natToStr (n : Nat) : String := String.mk (natDigitsAux (n + 1) n)

/-- Python `str(n)` for an integer. -/
def intToStr (n : Int) : String :=
  if n < 0 then "-" ++ natToStr n.natAbs else natToStr n.natAbs

/-! ## Citations and worldbook payload (`models.py`, `worldbook_builder.py`) -/

/-- A citation dict as produced by `RetrievalCandidate.citation` /
`WorldbookBuilder`. -/
structure Citation where
  source_type : String := ""
  source_id : String := ""
  chapter : Option String := none
  scene_index : Option Int := none
  chapter_title : String := ""
  excerpt : String := ""
deriving DecidableEq, Repr

/-- A `facts` entry of the worldbook payload. -/
structure WorldbookFact where
  fact_text : String := ""
  source_chapter : Option String := none
  source_scene : Option Int := none
  excerpt : String := ""
  confidence : ℚ := 0
deriving DecidableEq, Repr

/-- A `character_state` entry of the worldbook payload. -/
structure CharacterStateEntry where
  character : String := ""
  summary : String := ""
  confidence : ℚ := 0
deriving DecidableEq, Repr

/-- The worldbook context dict handed to response generation. -/
structure Worldbook where
  facts : List WorldbookFact := []
  character_state : List CharacterStateEntry := []
  timeline_notes : List WorldbookFact := []
  forbidden : List String := []
deriving DecidableEq, Repr

/-- The `{"facts": [], "character_state": [], "timeline_notes": [],
"forbidden": []}` literal of the no-novel respond branch. -/
def emptyWorldbook : Worldbook := {}

/-! ## `services/guardrails.py` — evidence and citation footer -/

/-- `Guardrails.has_enough_evidence`: `len(citations or []) > 0`. -/
def has_enough_evidence (citations : List Citation) : Bool :=
  0 < citations.length

/-- Python `item.get("chapter") or "unknown"`. -/
def citationChapterName (c : Citation) : String :=
  match c.chapter with
  | none => "unknown"
  | some s => if s = "" then "unknown" else s

/-- One footer line of `append_citation_footer`. -/
def citationLine (c : Citation) : String :=
  match c.scene_index with
  | none => "- " ++ citationChapterName c
  | some n => "- " ++ citationChapterName c ++ " / scene " ++ intToStr n

/-- The compact footer built from the first three citations. -/
def citationFooter (citations : List Citation) : String :=
  "\n\n参考来源:\n" ++ String.intercalate "\n" ((citations.take 3).map citationLine)

/-- `Guardrails.append_citation_footer`: keep the reply as is when there
are no citations or when it already mentions sources, otherwise append
the compact footer. -/
def append_citation_footer (reply : String) (citations : List Citation) : String :=
  if citations.isEmpty then reply
  else if strContains reply "参考来源" || strContains (pyLower reply) "citation" then reply
  else reply ++ citationFooter citations

/-! ## `api/rp_query_api.py` — `RPQueryService.respond` (lines 145-190) -/

/-- The fixed insufficient-evidence reply of `RPQueryService.respond`. -/
def insufficientEvidenceReply : String :=
  "未检索到明确证据，请补充人物、地点或章节范围后重试。"

/-- `RPQueryService._fallback_reply`: deterministic reply listing up to
three facts, used when the chat model call raises. -/
def fallback_reply (wb : Worldbook) : String :=
  if wb.facts.isEmpty then "当前没有足够证据支持回复，请提供更具体的问题。"
  else
    String.intercalate "\n"
      (["根据当前证据："] ++
        (wb.facts.take 3).map (fun f =>
          "- " ++ f.fact_text ++ "（" ++
            (match f.source_scene with
              | none =>
                  (match f.source_chapter with
                    | none => "unknown"
                    | some s => if s = "" then "unknown" else s)
              | some n =>
                  (match f.source_chapter with
                    | none => "unknown"
                    | some s => if s = "" then "unknown" else s) ++ " / scene " ++ intToStr n) ++
            "）") ++
        ["如果你希望我继续推进剧情，请指定你要扮演的角色和当前目标。"])

/-- The value returned by `respond`, together with the session state it
saves. -/
structure RespondResult where
  assistant_reply : String
  citations : List Citation
  worldbook : Worldbook
  saved_state : SessionState
deriving DecidableEq, Repr

/-- `RPQueryService.respond`, lines 145-190: the novel-backed respond path
after `worldbook_context`/`citations` have been resolved (either passed by
the caller or computed by `query_context`).  `llm` is the outcome of
`llm_client.call` (`Except.error` models a raised exception), `now` the
wall-clock timestamp. -/
def respond_core (message : String) (state0 : SessionState)
    (citations : Option (List Citation)) (wb : Worldbook)
    (unlocked_chapter : Option Int) (active_characters : Option (List String))
    (llm : Except String String) (now : String) : RespondResult :=
  let cites := citations.getD []
  let state1 := apply_runtime_updates state0 unlocked_chapter active_characters none
  let lastUserDup : Bool := match state1.turns.getLast? with
    | some t => t.role = "user" && t.content = message
    | none => false
  let state2 := if lastUserDup then state1 else append_turn state1 "user" message now
  if has_enough_evidence cites then
    let reply := match llm with
      | .ok r => r
      | .error _ => fallback_reply wb
    let final := append_citation_footer reply cites
    ⟨final, cites, wb, append_turn state2 "assistant" final now⟩
  else
    ⟨insufficientEvidenceReply, cites, wb,
      append_turn state2 "assistant" insufficientEvidenceReply now⟩

lemma drop_append_singleton {α : Type} (k : Nat) (l : List α) (a : α)
    (h : k ≤ l.length) : (l ++ [a]).drop k = l.drop k ++ [a] := by
  rw [List.drop_append_eq_append_drop]
  have hz : k - l.length = 0 := by omega
  rw [hz, List.drop_zero]

lemma append_turn_last (s : SessionState) (role content now : String) :
    ∃ pre, (append_turn s role content now).turns = pre ++ [Turn.mk role content now] := by
  unfold append_turn
  dsimp only
  split
  · refine ⟨s.turns.drop ((s.turns ++ [Turn.mk role content now]).length - 20), ?_⟩
    unfold takeLast
    exact drop_append_singleton _ _ _
      (by simp only [List.length_append, List.length_singleton]; omega)
  · exact ⟨s.turns, rfl⟩

lemma citationFooter_has_marker (citations : List Citation) :
    "参考来源".data <:+: (citationFooter citations).data := by
  unfold citationFooter
  rw [String.data_append]
  exact List.IsInfix.trans (by decide)
    ((List.prefix_append "\n\n参考来源:\n".data _).isInfix)

lemma append_citation_footer_ne_fixed (reply : String) (citations : List Citation)
    (h : citations ≠ []) :
    append_citation_footer reply citations ≠ insufficientEvidenceReply := by
  unfold append_citation_footer
  have hne : citations.isEmpty = false := by
    cases citations with
    | nil => exact absurd rfl h
    | cons c cs => rfl
  rw [hne]
  simp only [Bool.false_eq_true, if_false]
  by_cases hc : (strContains reply "参考来源" || strContains (pyLower reply) "citation") = true
  · rw [if_pos hc]
    intro heq
    rw [heq] at hc
    exact absurd hc (by decide)
  · rw [if_neg hc]
    intro heq
    have hinfix : "参考来源".data <:+: (reply ++ citationFooter citations).data := by
      rw [String.data_append]
      exact List.IsInfix.trans (citationFooter_has_marker citations)
        ((List.suffix_append reply.data _).isInfix)
    rw [heq] at hinfix
    exact absurd hinfix (by decide)

lemma has_enough_evidence_false_iff (citations : List Citation) :
    has_enough_evidence citations = false ↔ citations = [] := by
  cases citations <;> simp [has_enough_evidence]

/-- C2: the novel-backed `respond` path returns the fixed
insufficient-evidence reply exactly when the (resolved) citations list is
empty; in that case it also appends an assistant turn carrying that fixed
content to the session it saves, and in the non-empty case the reply can
never equal the fixed string (the citation footer or an existing source
mention makes it differ). -/
theorem respond_fixed_reply_iff_citations_empty (message : String)
    (state0 : SessionState) (citations : Option (List Citation)) (wb : Worldbook)
    (unlocked_chapter : Option Int) (active_characters : Option (List String))
    (llm : Except String String) (now : String) :
    ((respond_core message state0 citations wb unlocked_chapter active_characters
        llm now).assistant_reply = insufficientEvidenceReply ↔ citations.getD [] = []) ∧
    (citations.getD [] = [] →
      ∃ pre, (respond_core message state0 citations wb unlocked_chapter active_characters
        llm now).saved_state.turns = pre ++ [Turn.mk "assistant" insufficientEvidenceReply now]) ∧
    (respond_core message state0 citations wb unlocked_chapter active_characters
        llm now).citations = citations.getD [] := by
  by_cases hc : citations.getD [] = []
  · have hev : has_enough_evidence (citations.getD []) = false :=
      (has_enough_evidence_false_iff _).mpr hc
    refine ⟨?_, ?_, ?_⟩
    · simp only [respond_core, hev, Bool.false_eq_true, if_false]
      simp [hc]
    · intro _
      simp only [respond_core, hev, Bool.false_eq_true, if_false]
      exact append_turn_last _ _ _ _
    · simp only [respond_core, hev, Bool.false_eq_true, if_false]
  · have hev : has_enough_evidence (citations.getD []) = true := by
      cases h : has_enough_evidence (citations.getD [])
      · exact absurd ((has_enough_evidence_false_iff _).mp h) hc
      · rfl
    refine ⟨?_, fun h => absurd h hc, ?_⟩
    · simp only [respond_core, hev, if_true]
      simp only [hc, iff_false]
      exact append_citation_footer_ne_fixed _ _ hc
    · simp only [respond_core, hev, if_true]

theorem respond_fixed_reply_iff_citations_empty_witness :
    (((respond_core "朱县令在哪？" { session_id := "w" } (some []) emptyWorldbook
          none none (Except.ok "model reply") "t0").assistant_reply
        = insufficientEvidenceReply ↔ (some ([] : List Citation)).getD [] = []) ∧
      ((some ([] : List Citation)).getD [] = [] →
        ∃ pre, (respond_core "朱县令在哪？" { session_id := "w" } (some []) emptyWorldbook
            none none (Except.ok "model reply") "t0").saved_state.turns
          = pre ++ [Turn.mk "assistant" insufficientEvidenceReply "t0"]) ∧
      (respond_core "朱县令在哪？" { session_id := "w" } (some []) emptyWorldbook
          none none (Except.ok "model reply") "t0").citations
        = (some ([] : List Citation)).getD []) ∧
    (respond_core "朱县令在哪？" { session_id := "w" } (some []) emptyWorldbook
        none none (Except.ok "model reply") "t0").assistant_reply
      = insufficientEvidenceReply ∧
    (respond_core "q" { session_id := "w" } (some [{ chapter := some "chapter_0001" }])
        emptyWorldbook none none (Except.ok "回答文本") "t0").assistant_reply
      ≠ insufficientEvidenceReply :=
  ⟨respond_fixed_reply_iff_citations_empty "朱县令在哪？" { session_id := "w" }
      (some []) emptyWorldbook none none (Except.ok "model reply") "t0",
    by decide,
    fun h => absurd
      ((respond_fixed_reply_iff_citations_empty "q" { session_id := "w" }
          (some [{ chapter := some "chapter_0001" }]) emptyWorldbook none none
          (Except.ok "回答文本") "t0").1.mp h)
      (by decide)⟩

/-! ## `services/query_understanding.py` — effective unlocked chapter -/

/-- `models.QueryConstraints`. -/
structure QueryConstraints where
  unlocked_chapter : Option Int := none
  active_characters : List String := []
  location_hints : List String := []
deriving DecidableEq, Repr

/-- The `effective_unlocked` computation inside
`QueryUnderstandingService.understand`: the runtime argument when present,
else the session's `max_unlocked_chapter`. -/
def understand_effective_unlocked (unlocked_chapter : Option Int) (s : SessionState) :
    Option Int :=
  match unlocked_chapter with
  | some u => some u
  | none => some s.max_unlocked_chapter

/-- The `QueryConstraints` record built by `understand` (Python
`active_characters or session_state.active_characters` treats both `None`
and `[]` as absent). -/
def understand_constraints (unlocked_chapter : Option Int)
    (active_characters : Option (List String)) (s : SessionState)
    (locations : List String) : QueryConstraints :=
  { unlocked_chapter := understand_effective_unlocked unlocked_chapter s,
    active_characters := normalize_entities (match active_characters with
      | none => s.active_characters
      | some l => if l = [] then s.active_characters else l),
    location_hints := locations }

/-- The constraint-producing slice of `RPQueryService.query_context`: fold
the runtime `unlocked_chapter` and `active_characters` into the loaded
session state via `apply_runtime_updates`, then call `understand` with
`unlocked_chapter = state.max_unlocked_chapter` and
`active_characters = state.active_characters`. -/
def query_context_constraints (runtime_unlocked : Option Int)
    (runtime_active : Option (List String)) (state0 : SessionState)
    (locations : List String) : QueryConstraints :=
  let state1 := apply_runtime_updates state0 runtime_unlocked runtime_active none
  understand_constraints (some state1.max_unlocked_chapter)
    (some state1.active_characters) state1 locations

/-- C6: through `query_context`, the constraints' unlocked chapter equals
`max(runtime, session.max_unlocked_chapter)` when a runtime value is
given, and the session's `max_unlocked_chapter` when it is absent. -/
theorem query_context_unlocked_is_max (u : Int) (runtime_active : Option (List String))
    (s : SessionState) (locations : List String) :
    (query_context_constraints (some u) runtime_active s locations).unlocked_chapter
      = some (max u s.max_unlocked_chapter) ∧
    (query_context_constraints none runtime_active s locations).unlocked_chapter
      = some s.max_unlocked_chapter := by
  cases runtime_active <;>
    simp [query_context_constraints, apply_runtime_updates,
      understand_constraints, understand_effective_unlocked]

theorem query_context_unlocked_is_max_witness :
    ((query_context_constraints (some 13) none
        { session_id := "w6", max_unlocked_chapter := 20 } []).unlocked_chapter
      = some (max 13 20) ∧
    (query_context_constraints none none
        { session_id := "w6", max_unlocked_chapter := 20 } []).unlocked_chapter
      = some 20) ∧
    (query_context_constraints (some 13) none
        { session_id := "w6", max_unlocked_chapter := 20 } []).unlocked_chapter
      = some 20 :=
  ⟨query_context_unlocked_is_max 13 none { session_id := "w6", max_unlocked_chapter := 20 } [],
    by decide⟩

/-! ## `api/rp_query_api.py` — the no-novel branch of the respond endpoint -/

/-- Result of the guest/no-novel respond branch, including the prompts the
chat model is invoked with. -/
structure NoNovelRespondResult where
  assistant_reply : String
  citations : List Citation
  worldbook : Worldbook
  saved_state : SessionState
  system_prompt : String
  user_prompt : String
deriving DecidableEq, Repr

/-- The user prompt of the no-novel branch: only the last ten history
turns and the raw message, no worldbook or citation material. -/
def no_novel_user_prompt (history : List Turn) (message : String) : String :=
  "对话上下文：\n" ++
    String.join ((takeLast 10 history).map (fun t =>
      if t.role ≠ "" ∧ t.content ≠ "" then "- " ++ t.role ++ ": " ++ t.content ++ "\n"
      else "")) ++
    "\n用户：" ++ message ++ "\n助手："

/-- Lines 697-723 of `rp_query_api.py`: the respond endpoint when no
`novel_id` is supplied.  The guardrail is never consulted; a model
exception becomes the error-text reply. -/
def respond_no_novel (message : String) (state0 : SessionState)
    (recent_messages : Option (List Turn)) (llm : Except String String)
    (now : String) : NoNovelRespondResult :=
  let history := match recent_messages with
    | some l => l
    | none => takeLast 10 state0.turns
  let state1 := append_turn state0 "user" message now
  let reply := match llm with
    | .ok r => r
    | .error e => "请求失败：" ++ e
  let state2 := append_turn state1 "assistant" reply now
  { assistant_reply := reply,
    citations := [],
    worldbook := emptyWorldbook,
    saved_state := state2,
    system_prompt := "你是 AIRP 的聊天助手。无需引用证据，回答要清晰、有帮助。",
    user_prompt := no_novel_user_prompt history message }

lemma error_text_ne_insufficient (e : String) :
    "请求失败：" ++ e ≠ insufficientEvidenceReply := by
  intro h
  have h3 : ("请求失败：" ++ e).data.head? = insufficientEvidenceReply.data.head? := by
    rw [h]
  rw [String.data_append,
    show "请求失败：".data = '请' :: "求失败：".data from by decide] at h3
  simp only [List.cons_append, List.head?_cons] at h3
  exact absurd h3 (by decide)

/-- C10: the no-novel respond branch always returns empty citations and
the empty worldbook, passes the model output through verbatim (so the
guardrail's fixed insufficient-evidence reply is never generated by the
endpoint), and turns a model failure into the error-text reply instead of
an exception; the prompt sent to the model is built from the dialogue
history and message only. -/
theorem respond_no_novel_bypasses_guardrail (message : String) (state0 : SessionState)
    (recent_messages : Option (List Turn)) (llm : Except String String) (now : String) :
    (respond_no_novel message state0 recent_messages llm now).citations = [] ∧
    (respond_no_novel message state0 recent_messages llm now).worldbook = emptyWorldbook ∧
    (∀ t, llm = .ok t →
      (respond_no_novel message state0 recent_messages llm now).assistant_reply = t) ∧
    (∀ e, llm = .error e →
      (respond_no_novel message state0 recent_messages llm now).assistant_reply
          = "请求失败：" ++ e ∧
        (respond_no_novel message state0 recent_messages llm now).assistant_reply
          ≠ insufficientEvidenceReply) ∧
    (respond_no_novel message state0 recent_messages llm now).user_prompt
      = no_novel_user_prompt
          (match recent_messages with
            | some l => l
            | none => takeLast 10 state0.turns) message := by
  refine ⟨rfl, rfl, ?_, ?_, rfl⟩
  · intro t ht
    subst ht
    rfl
  · intro e he
    subst he
    exact ⟨rfl, error_text_ne_insufficient e⟩

theorem respond_no_novel_bypasses_guardrail_witness :
    ((respond_no_novel "你好" { session_id := "w10" } none (Except.error "timeout") "t0").citations
        = [] ∧
      (respond_no_novel "你好" { session_id := "w10" } none (Except.error "timeout") "t0").worldbook
        = emptyWorldbook ∧
      (∀ t, (Except.error "timeout" : Except String String) = .ok t →
        (respond_no_novel "你好" { session_id := "w10" } none
          (Except.error "timeout") "t0").assistant_reply = t) ∧
      (∀ e, (Except.error "timeout" : Except String String) = .error e →
        (respond_no_novel "你好" { session_id := "w10" } none
            (Except.error "timeout") "t0").assistant_reply = "请求失败：" ++ e ∧
          (respond_no_novel "你好" { session_id := "w10" } none
            (Except.error "timeout") "t0").assistant_reply ≠ insufficientEvidenceReply) ∧
      (respond_no_novel "你好" { session_id := "w10" } none
          (Except.error "timeout") "t0").user_prompt
        = no_novel_user_prompt
            (match (none : Option (List Turn)) with
              | some l => l
              | none => takeLast 10 ({ session_id := "w10" } : SessionState).turns) "你好") ∧
    (respond_no_novel "你好" { session_id := "w10" } none
        (Except.error "timeout") "t0").assistant_reply = "请求失败：timeout" :=
  ⟨respond_no_novel_bypasses_guardrail "你好" { session_id := "w10" } none
      (Except.error "timeout") "t0",
    by decide⟩

/-! ## `utils/llm_client.py` — `_SharedRateLimiter` -/

/-- The pacing state of `_SharedRateLimiter` (the float interval is
modelled as a rational; the verified facts use only comparisons and
`max`). -/
structure SharedRateLimiter where
  interval_s : ℚ
deriving DecidableEq, Repr

/-- `_SharedRateLimiter._calc_interval`: `None` and non-positive rates
give 0 ("no limiting"), otherwise the interval is `60 / rate`. -/
def calc_interval : Option ℚ → ℚ
  | none => 0
  | some r => if r = 0 then 0 else if r ≤ 0 then 0 else 60 / r

/-- `_SharedRateLimiter.__init__`. -/
def limiterInit (rate_limit_per_minute : Option ℚ) : SharedRateLimiter :=
  ⟨calc_interval rate_limit_per_minute⟩

/-- `_SharedRateLimiter.update_rate_limit`: adopt the new interval only
when it is positive and strictly larger than the current one. -/
def update_rate_limit (l : SharedRateLimiter) (rate_limit_per_minute : Option ℚ) :
    SharedRateLimiter :=
  let new_interval := calc_interval rate_limit_per_minute
  if new_interval ≤ 0 then l
  else if l.interval_s < new_interval then ⟨new_interval⟩ else l

lemma calc_interval_nonneg (rate : Option ℚ) : 0 ≤ calc_interval rate := by
  cases rate with
  | none => exact le_refl 0
  | some r =>
      simp only [calc_interval]
      split_ifs with h1 h2
      · exact le_refl 0
      · exact le_refl 0
      · exact (div_pos (by norm_num) (not_le.mp h2)).le

lemma update_rate_limit_eq_max (l : SharedRateLimiter) (rate : Option ℚ)
    (h : 0 ≤ l.interval_s) :
    (update_rate_limit l rate).interval_s = max l.interval_s (calc_interval rate) := by
  unfold update_rate_limit
  dsimp only
  split
  · rename_i hle
    rw [max_eq_left (by linarith)]
  · split
    · rename_i hlt
      rw [max_eq_right (by linarith)]
    · rename_i hlt
      rw [max_eq_left (by linarith [not_lt.mp hlt])]

lemma update_rate_limit_nonneg (l : SharedRateLimiter) (rate : Option ℚ)
    (h : 0 ≤ l.interval_s) : 0 ≤ (update_rate_limit l rate).interval_s := by
  rw [update_rate_limit_eq_max l rate h]
  exact le_trans h (le_max_left _ _)

/-- C8: starting from any non-negative interval (every reachable limiter
state, since `__init__` uses `calc_interval ≥ 0`), each update sets the
interval to the max of the current and newly computed one, a non-positive
computed interval (absent, zero or negative rate) leaves the limiter
unchanged, the interval never decreases, and over any update sequence the
final interval is the fold of `max` over all computed intervals — the
strictest interval seen wins. -/
theorem rate_limiter_strictest_interval_wins (l : SharedRateLimiter)
    (rate : Option ℚ) (rates : List (Option ℚ)) (h : 0 ≤ l.interval_s) :
    (update_rate_limit l rate).interval_s = max l.interval_s (calc_interval rate) ∧
    (calc_interval rate ≤ 0 → update_rate_limit l rate = l) ∧
    l.interval_s ≤ (update_rate_limit l rate).interval_s ∧
    (rates.foldl update_rate_limit l).interval_s
      = (rates.map calc_interval).foldl max l.interval_s := by
  refine ⟨update_rate_limit_eq_max l rate h, ?_, ?_, ?_⟩
  · intro hle
    unfold update_rate_limit
    dsimp only
    rw [if_pos hle]
  · rw [update_rate_limit_eq_max l rate h]
    exact le_max_left _ _
  · induction rates generalizing l with
    | nil => rfl
    | cons r rest ih =>
        simp only [List.foldl_cons, List.map_cons]
        rw [ih (update_rate_limit l r) (update_rate_limit_nonneg l r h),
          update_rate_limit_eq_max l r h]

theorem rate_limiter_strictest_interval_wins_witness :
    0 ≤ (limiterInit (some 30)).interval_s ∧
    ((update_rate_limit (limiterInit (some 30)) (some 10)).interval_s
        = max (limiterInit (some 30)).interval_s (calc_interval (some 10)) ∧
      (calc_interval (some 10) ≤ 0 →
        update_rate_limit (limiterInit (some 30)) (some 10) = limiterInit (some 30)) ∧
      (limiterInit (some 30)).interval_s
        ≤ (update_rate_limit (limiterInit (some 30)) (some 10)).interval_s ∧
      (([some 10, none, some 0, some (-5), some 60].foldl update_rate_limit
          (limiterInit (some 30))).interval_s
        = ([some 10, none, some 0, some (-5), some 60].map calc_interval).foldl max
            (limiterInit (some 30)).interval_s)) ∧
    ([some 10, none, some 0, some (-5), some 60].foldl update_rate_limit
        (limiterInit (some 30))).interval_s = 6 :=
  ⟨by norm_num [limiterInit, calc_interval],
    rate_limiter_strictest_interval_wins (limiterInit (some 30)) (some 10)
      [some 10, none, some 0, some (-5), some 60]
      (by norm_num [limiterInit, calc_interval]),
    by norm_num [limiterInit, calc_interval, update_rate_limit]⟩

/-! ## `step4_vectorize.py` — `_build_point_id`: UUIDv5 over SHA-1

The Python code calls `uuid.uuid5(uuid.NAMESPACE_URL, raw_key)`; the
stdlib computes the SHA-1 of the namespace bytes followed by the UTF-8
name, keeps the first 16 bytes, forces version 5 and the RFC 4122
variant, and prints the canonical hex form.  All of that is embedded
below over byte lists (`Nat` values < 256). -/

/-- Rotate a 32-bit word left by `n` bits. -/
def rotl32 (n x : Nat) : Nat :=
  ((x <<< n) ||| (x >>> (32 - n))) % 4294967296

/-- Big-endian bytes of a 32-bit word. -/
def be32 (w : Nat) : List Nat :=
  [(w >>> 24) &&& 255, (w >>> 16) &&& 255, (w >>> 8) &&& 255, w &&& 255]

/-- Big-endian bytes of a 64-bit value. -/
def be64 (w : Nat) : List Nat :=
  [(w >>> 56) &&& 255, (w >>> 48) &&& 255, (w >>> 40) &&& 255, (w >>> 32) &&& 255,
    (w >>> 24) &&& 255, (w >>> 16) &&& 255, (w >>> 8) &&& 255, w &&& 255]

/-- Pack bytes into big-endian 32-bit words. -/
def bytesToWords : List Nat → List Nat
  | a :: b :: c :: d :: rest => (((a * 256 + b) * 256 + c) * 256 + d) :: bytesToWords rest
  | _ => []

/-- Extend the 16 message words to 80 (`fuel` counts the words still to
append). -/
def sha1ExtendW : Nat → List Nat → List Nat
  | 0, ws => ws
  | fuel + 1, ws =>
      let n := ws.length
      let w := rotl32 1 ((((ws.getD (n - 3) 0) ^^^ (ws.getD (n - 8) 0)) ^^^
        (ws.getD (n - 14) 0)) ^^^ (ws.getD (n - 16) 0))
      sha1ExtendW fuel (ws ++ [w])

/-- The SHA-1 round function. -/
def sha1F (t b c d : Nat) : Nat :=
  if t < 20 then (b &&& c) ||| ((b ^^^ 4294967295) &&& d)
  else if t < 40 then (b ^^^ c) ^^^ d
  else if t < 60 then ((b &&& c) ||| (b &&& d)) ||| (c &&& d)
  else (b ^^^ c) ^^^ d

/-- The SHA-1 round constants. -/
def sha1K (t : Nat) : Nat :=
  if t < 20 then 1518500249
  else if t < 40 then 1859775393
  else if t < 60 then 2400959708
  else 3395469782

/-- Working state of one SHA-1 compression. -/
structure Sha1State where
  h0 : Nat
  h1 : Nat
  h2 : Nat
  h3 : Nat
  h4 : Nat
deriving DecidableEq, Repr

/-- The 80 SHA-1 rounds over the indexed word schedule. -/
def sha1Rounds : List (Nat × Nat) → Sha1State → Sha1State
  | [], st => st
  | (t, w) :: rest, ⟨a, b, c, d, e⟩ =>
      let temp := (rotl32 5 a + sha1F t b c d + e + sha1K t + w) % 4294967296
      sha1Rounds rest ⟨temp, a, rotl32 30 b, c, d⟩

/-- One SHA-1 block compression. -/
def sha1ProcessBlock (st : Sha1State) (block : List Nat) : Sha1State :=
  let ws := sha1ExtendW 64 (bytesToWords block)
  let r := sha1Rounds ws.enum st
  ⟨(st.h0 + r.h0) % 4294967296, (st.h1 + r.h1) % 4294967296,
    (st.h2 + r.h2) % 4294967296, (st.h3 + r.h3) % 4294967296,
    (st.h4 + r.h4) % 4294967296⟩

/-- Split a byte list into 64-byte blocks (`fuel` bounds the recursion by
the list length). -/
def chunks64 : Nat → List Nat → List (List Nat)
  | 0, _ => []
  | _, [] => []
  | fuel + 1, l => l.take 64 :: chunks64 fuel (l.drop 64)

/-- SHA-1 padding: a `0x80` byte, zeros to 56 mod 64, and the bit length
as a big-endian 64-bit value. -/
def sha1Pad (msg : List Nat) : List Nat :=
  msg ++ (128 :: List.replicate ((119 - (msg.length % 64)) % 64) 0) ++ be64 (8 * msg.length)

/-- SHA-1 digest (20 bytes) of a byte list. -/
def sha1 (msg : List Nat) : List Nat :=
  let padded := sha1Pad msg
  let final := (chunks64 padded.length padded).foldl sha1ProcessBlock
    ⟨1732584193, 4023233417, 2562383102, 271733878, 3285377520⟩
  ((be32 final.h0 ++ be32 final.h1) ++ be32 final.h2) ++ (be32 final.h3 ++ be32 final.h4)

/-- UTF-8 bytes of one code point. -/
def utf8Bytes (c : Nat) : List Nat :=
  if c < 128 then [c]
  else if c < 2048 then [192 ||| (c >>> 6), 128 ||| (c &&& 63)]
  else if c < 65536 then
    [224 ||| (c >>> 12), 128 ||| ((c >>> 6) &&& 63), 128 ||| (c &&& 63)]
  else
    [240 ||| (c >>> 18), 128 ||| ((c >>> 12) &&& 63), 128 ||| ((c >>> 6) &&& 63),
      128 ||| (c &&& 63)]

/-- UTF-8 encoding of a string. -/
def strUtf8 (s : String) : List Nat :=
  (s.data.map (fun c => utf8Bytes c.toNat)).flatten

/-- The 16 bytes of `uuid.NAMESPACE_URL`
(`6ba7b811-9dad-11d1-80b4-00c04fd430c8`). -/
def NAMESPACE_URL : List Nat :=
  [107, 167, 184, 17, 157, 173, 17, 209, 128, 180, 0, 192, 79, 212, 48, 200]

/-- Hex character of a nibble. -/
def hexChar (n : Nat) : Char :=
  if n < 10 then Char.ofNat (48 + n) else Char.ofNat (87 + n)

/-- Lower-case hex of a byte list. -/
def hexOfBytes (bs : List Nat) : String :=
  String.mk ((bs.map (fun b => [hexChar (b / 16), hexChar (b % 16)])).flatten)

/-- `uuid.uuid5` digest bytes: SHA-1 of namespace plus name, truncated to
16 bytes, with the version nibble forced to 5 and the variant bits to
`10`. -/
def uuid5Bytes (ns : List Nat) (name : List Nat) : List Nat :=
  ((sha1 (ns ++ name)).take 16).enum.map (fun p =>
    if p.1 = 6 then (p.2 &&& 15) ||| 80
    else if p.1 = 8 then (p.2 &&& 63) ||| 128
    else p.2)

/-- Canonical 8-4-4-4-12 string form of a UUID. -/
def uuidFormat (bs : List Nat) : String :=
  hexOfBytes (bs.take 4) ++ "-" ++ hexOfBytes ((bs.drop 4).take 2) ++ "-" ++
    hexOfBytes ((bs.drop 6).take 2) ++ "-" ++ hexOfBytes ((bs.drop 8).take 2) ++ "-" ++
    hexOfBytes (bs.drop 10)

/-- `str(uuid.uuid5(ns, name))`. -/
def uuid5Str (ns : List Nat) (name : String) : String :=
  uuidFormat (uuid5Bytes ns (strUtf8 name))

/-- Left-pad a digit list with zeros to width `w`. -/
def leftPadZeros (w : Nat) (s : List Char) : List Char :=
  List.replicate (w - s.length) '0' ++ s

/-- Python `"%06d" % n`: width 6 including the sign. -/
def py06d (n : Int) : String :=
  if n < 0 then String.mk ('-' :: leftPadZeros 5 (natDigitsAux (n.natAbs + 1) n.natAbs))
  else String.mk (leftPadZeros 6 (natDigitsAux (n.natAbs + 1) n.natAbs))

/-- A JSON value that can occupy a scene's `scene_index` field. -/
inductive SceneIdxValue where
  | intv (n : Int) : SceneIdxValue
  | strv (s : String) : SceneIdxValue
  | nullv : SceneIdxValue
deriving DecidableEq, Repr

/-- Python `int(scene_index)` with the `(TypeError, ValueError)` handler
of `_build_point_id`: non-convertible values fall back to 0. -/
def sceneIdxToInt : SceneIdxValue → Int
  | .intv n => n
  | .strv s => (parseIntChars s.data).getD 0
  | .nullv => 0

/-- `SceneVectorizer._build_point_id`:
`str(uuid.uuid5(uuid.NAMESPACE_URL, f"{chapter_id}:{scene_index_int:06d}"))`. -/
def build_point_id (chapter_id : String) (scene_index : SceneIdxValue) : String :=
  uuid5Str NAMESPACE_URL (chapter_id ++ ":" ++ py06d (sceneIdxToInt scene_index))

set_option maxRecDepth 100000 in
/-- C5: the point id is the UUIDv5 (namespace URL) of
`"{chapter_id}:{scene_index:06d}"` with non-convertible scene indexes
falling back to 0; `build_point_id` is a pure function (equal inputs give
equal ids across reruns), and on the spec's concrete example it equals
the real UUIDv5 value. -/
theorem build_point_id_is_uuid5 (cid cid2 : String) (si si2 : SceneIdxValue) :
    build_point_id cid si
      = uuid5Str NAMESPACE_URL (cid ++ ":" ++ py06d (sceneIdxToInt si)) ∧
    (cid = cid2 → si = si2 → build_point_id cid si = build_point_id cid2 si2) ∧
    build_point_id "chapter_0001" (.intv 7)
      = uuid5Str NAMESPACE_URL "chapter_0001:000007" ∧
    build_point_id "chapter_0001" (.intv 7) = "1d74328b-f8ce-5cf2-9847-f118626afc8e" ∧
    (∀ s, parseIntChars s.data = none →
      build_point_id cid (.strv s) = build_point_id cid (.intv 0)) ∧
    build_point_id cid .nullv = build_point_id cid (.intv 0) := by
  refine ⟨rfl, ?_, by decide, by decide, ?_, rfl⟩
  · intro h1 h2
    rw [h1, h2]
  · intro s hs
    simp only [build_point_id, sceneIdxToInt, hs, Option.getD_none]

set_option maxRecDepth 100000 in
theorem build_point_id_is_uuid5_witness :
    ((build_point_id "chapter_0001" (.intv 7)
        = uuid5Str NAMESPACE_URL
            ("chapter_0001" ++ ":" ++ py06d (sceneIdxToInt (.intv 7)))) ∧
      ("chapter_0001" = "chapter_0001" → SceneIdxValue.intv 7 = .intv 7 →
        build_point_id "chapter_0001" (.intv 7) = build_point_id "chapter_0001" (.intv 7)) ∧
      build_point_id "chapter_0001" (.intv 7)
        = uuid5Str NAMESPACE_URL "chapter_0001:000007" ∧
      build_point_id "chapter_0001" (.intv 7) = "1d74328b-f8ce-5cf2-9847-f118626afc8e" ∧
      (∀ s, parseIntChars s.data = none →
        build_point_id "chapter_0001" (.strv s) = build_point_id "chapter_0001" (.intv 0)) ∧
      build_point_id "chapter_0001" .nullv = build_point_id "chapter_0001" (.intv 0)) ∧
    parseIntChars "scene-a".data = none ∧
    build_point_id "chapter_0001" (.strv "scene-a") = build_point_id "chapter_0001" (.intv 0) :=
  ⟨build_point_id_is_uuid5 "chapter_0001" "chapter_0001" (.intv 7) (.intv 7),
    by decide,
    ((build_point_id_is_uuid5 "chapter_0001" "chapter_0001" (.intv 7) (.intv 7)).2.2.2.2.1
      "scene-a" (by decide))⟩

/-! ## `step4_vectorize.py` — `_extract_chapter_no` and `_create_point` -/

/-- The pattern actually compiled by
`re.search(r'(\\d+)', str(chapter_id))`: the raw string contains a double
backslash, so the regex matches one literal backslash followed by one or
more letters `d` — not a digit run.  This searches for the leftmost such
match and returns the captured text. -/
def bsdSearch : List Char → Option (List Char)
  | [] => none
  | c :: rest =>
      if c = '\\' ∧ rest.takeWhile (fun d => d = 'd') ≠ [] then
        some (c :: rest.takeWhile (fun d => d = 'd'))
      else bsdSearch rest

/-- `SceneVectorizer._extract_chapter_no`: 0 when the pattern does not
match, else `int(group)` with `ValueError` mapped to 0. -/
def extract_chapter_no (chapter_id : String) : Int :=
  match bsdSearch chapter_id.data with
  | none => 0
  | some g =>
      match parseIntChars g with
      | none => 0
      | some n => n

lemma bsdSearch_shape (l : List Char) :
    ∀ g, bsdSearch l = some g →
      ∃ ds, g = '\\' :: ds ∧ ds ≠ [] ∧ ∀ c ∈ ds, c = 'd' := by
  induction l with
  | nil => intro g h; cases h
  | cons c rest ih =>
      intro g h
      unfold bsdSearch at h
      split at h
      · rename_i hcond
        refine ⟨rest.takeWhile (fun d => d = 'd'), ?_, hcond.2, ?_⟩
        · rw [← hcond.1]
          exact (Option.some_inj.mp h).symm
        · intro x hx
          have := List.mem_takeWhile_imp hx
          exact of_decide_eq_true this
      · exact ih g h

lemma parseIntChars_backslash_d (ds : List Char) (hne : ds ≠ [])
    (hall : ∀ c ∈ ds, c = 'd') : parseIntChars ('\\' :: ds) = none := by
  have hds : ds.reverse ≠ [] := by simpa using hne
  obtain ⟨y, ys, hrev⟩ := List.exists_cons_of_ne_nil hds
  have hy : y = 'd' := hall y (by
    rw [← List.mem_reverse, hrev]
    exact List.mem_cons_self y ys)
  unfold parseIntChars
  have h1 : (('\\' :: ds).dropWhile Char.isWhitespace) = '\\' :: ds := by
    rw [List.dropWhile_cons, if_neg (by decide)]
  rw [h1]
  have h2 : ('\\' :: ds).reverse.dropWhile Char.isWhitespace = ('\\' :: ds).reverse := by
    rw [List.reverse_cons, hrev, List.cons_append, List.dropWhile_cons, hy,
      if_neg (by decide)]
  rw [h2, List.reverse_reverse]
  simp

/-- `_extract_chapter_no` never extracts a digit run: the doubled
backslash makes the regex match `\dd…d`, whose captured text `int()`
can never parse, so the result is 0 for every chapter id. -/
lemma extract_chapter_no_always_zero (cid : String) :
    extract_chapter_no cid = 0 ∧ extract_chapter_no "chapter_0020" = 0 := by
  constructor
  · unfold extract_chapter_no
    cases h : bsdSearch cid.data with
    | none => rfl
    | some g =>
        obtain ⟨ds, rfl, hne, hall⟩ := bsdSearch_shape cid.data g h
        dsimp only
        rw [parseIntChars_backslash_d ds hne hall]
  · decide

/-- `SceneMetadata` as consumed by `_create_point` (the `metadata.get`
defaults of stage 4 are the field defaults). -/
structure SceneMetadata where
  characters : List String := []
  location : String := ""
  time_description : String := ""
  event_summary : String := ""
  emotion_tone : String := ""
  key_dialogues : List String := []
  character_relations : List String := []
  plot_significance : String := "medium"
deriving DecidableEq, Repr

/-- One scene record of an annotated chapter file. -/
structure Scene where
  text : String := ""
  scene_index : Option Int := none
  scene_summary : String := ""
  char_count : Nat := 0
  metadata : SceneMetadata := {}
deriving DecidableEq, Repr

/-- `SceneVectorizer._infer_entity_tags`.  The Python code accumulates a
set and returns `sorted(tags)`; since at most the four fixed tags (or the
lone default) can occur, the sorted set is realised as the concatenation
in code-point order 修行 < 办案 < 战斗 < 朝堂.  Note
`metadata.get('scene_summary', '')` is always `''` because stage 3 stores
`scene_summary` on the scene, not inside `metadata`. -/
def infer_entity_tags (metadata : SceneMetadata) (scene_text : String) : List String :=
  let text := metadata.event_summary ++ " " ++ "" ++ " " ++ scene_text
  let hasBan := ["案", "捕", "审", "衙门", "查"].any (fun k => strContains text k)
  let hasChao := ["朝", "帝", "官", "奏", "殿", "京城"].any (fun k => strContains text k)
  let hasXiu := ["修行", "功法", "元神", "佛门", "道门", "气机"].any (fun k => strContains text k)
  let hasZhan := ["战", "军", "兵", "杀"].any (fun k => strContains text k)
  if !hasBan && !hasChao && !hasXiu && !hasZhan then ["剧情"]
  else
    (if hasXiu then ["修行"] else []) ++ (if hasBan then ["办案"] else []) ++
      (if hasZhan then ["战斗"] else []) ++ (if hasChao then ["朝堂"] else [])

/-- The payload dict built by `SceneVectorizer._create_point`. -/
structure PointPayload where
  text : String
  chapter : String
  chapter_no : Int
  chapter_title : String
  scene_index : Int
  scene_summary : String
  char_count : Nat
  characters : List String
  location : String
  time_description : String
  event_summary : String
  emotion_tone : String
  key_dialogues : List String
  character_relations : List String
  plot_significance : String
  aliases : List String
  entity_tags : List String
  spoiler_level : Int
deriving DecidableEq, Repr

/-- A Qdrant `PointStruct`. -/
structure QdrantPoint where
  id : String
  vector : List ℚ
  payload : PointPayload
deriving DecidableEq, Repr

/-- `SceneVectorizer._create_point`. -/
def create_point (point_id : String) (scene : Scene) (embedding : List ℚ)
    (chapter_id chapter_title : String) : QdrantPoint :=
  { id := point_id,
    vector := embedding,
    payload :=
      { text := scene.text,
        chapter := chapter_id,
        chapter_no := extract_chapter_no chapter_id,
        chapter_title := chapter_title,
        scene_index := scene.scene_index.getD 0,
        scene_summary := scene.scene_summary,
        char_count := scene.char_count,
        characters := scene.metadata.characters,
        location := scene.metadata.location,
        time_description := scene.metadata.time_description,
        event_summary := scene.metadata.event_summary,
        emotion_tone := scene.metadata.emotion_tone,
        key_dialogues := scene.metadata.key_dialogues,
        character_relations := scene.metadata.character_relations,
        plot_significance := scene.metadata.plot_significance,
        aliases := scene.metadata.characters,
        entity_tags := infer_entity_tags scene.metadata scene.text,
        spoiler_level := extract_chapter_no chapter_id } }

/-- C3 (code bug): every point upserted by stage 4 carries
`chapter_no = spoiler_level = 0`, whatever the chapter id — the pattern
`r'(\\d+)'` contains a doubled backslash, so it matches a literal
backslash followed by letters `d` rather than a digit run, and its
captured text never parses as an integer.  In particular
`"chapter_0020"` yields 0, not the 20 the claim and spec state. -/
theorem step4_payload_chapter_no_always_zero (point_id : String) (scene : Scene)
    (embedding : List ℚ) (chapter_id chapter_title : String) :
    (create_point point_id scene embedding chapter_id chapter_title).payload.chapter_no
        = 0 ∧
    (create_point point_id scene embedding chapter_id chapter_title).payload.spoiler_level
        = 0 ∧
    extract_chapter_no "chapter_0020" = 0 ∧ (0 : Int) ≠ 20 := by
  refine ⟨?_, ?_, (extract_chapter_no_always_zero "x").2, by decide⟩
  · exact (extract_chapter_no_always_zero chapter_id).1
  · exact (extract_chapter_no_always_zero chapter_id).1

/-! ## `step4_vectorize.py` — `vectorize_chapter` and `run_step4` -/

/-- The point list built by the loop of `vectorize_chapter`:
`scene.get('scene_index', i)` over `enumerate(zip(scenes, embeddings))`. -/
def vectorize_points (chapter_id chapter_title : String) (scenes : List Scene)
    (embeddings : List (List ℚ)) : List QdrantPoint :=
  (scenes.zip embeddings).enum.map (fun p =>
    create_point
      (build_point_id chapter_id (.intv (p.2.1.scene_index.getD (Int.ofNat p.1))))
      p.2.1 p.2.2 chapter_id chapter_title)

/-- Observable effect of one `vectorize_chapter` call: whether the
chapter's old points were deleted, which points were upserted, and the
returned scene count. -/
structure VectorizeOutcome where
  deleted_chapter_points : Bool
  upserted : List QdrantPoint
  ret : Nat
deriving DecidableEq, Repr

/-- `SceneVectorizer.vectorize_chapter` after the annotated file has been
loaded: on an embedding-count mismatch it logs an error and returns 0
without deleting or upserting anything; otherwise it deletes the
chapter's points and upserts one point per scene. -/
def vectorize_chapter_model (chapter_id chapter_title : String) (scenes : List Scene)
    (embeddings : List (List ℚ)) : VectorizeOutcome :=
  if embeddings.length ≠ scenes.length then ⟨false, [], 0⟩
  else
    let pts := vectorize_points chapter_id chapter_title scenes embeddings
    ⟨true, pts, pts.length⟩

/-- `step4_vectorize.should_run_step4`. -/
def should_run_step4 (status : String) (force : Bool) : Bool :=
  if force then
    status == "annotated_done" || status == "vectorized" || status == "vectorize_failed"
  else status == "annotated_done"

/-- The per-chapter body of `run_step4`: the skip guards, then the
`try/except` around `vectorize_chapter`.  `embedResult` is the outcome of
the embedding call (`Except.error` models an exception inside the try
block).  Returns the chapter's new status and, when `vectorize_chapter`
ran to completion, its outcome.  Note the mismatch path is a normal
return, not an exception, so it reaches the `status = 'vectorized'`
line. -/
def run_step4_chapter (status : String) (force : Bool)
    (annotated_file_exists : Bool) (chapter_id chapter_title : String)
    (scenes : List Scene) (embedResult : Except String (List (List ℚ))) :
    String × Option VectorizeOutcome :=
  if status == "vectorized" && !force then (status, none)
  else if !(should_run_step4 status force) then (status, none)
  else if !annotated_file_exists then (status, none)
  else
    match embedResult with
    | .error _ => ("vectorize_failed", none)
    | .ok embeddings =>
        ("vectorized", some (vectorize_chapter_model chapter_id chapter_title scenes embeddings))

/-- C4 (code bug): when the embedding call returns a number of vectors
different from the number of scenes, `vectorize_chapter` does abort
before any delete or upsert — but it returns 0 instead of raising, so
`run_step4` still sets the chapter's status to `vectorized`, not the
`vectorize_failed` the claim and spec state. -/
theorem step4_mismatch_still_marked_vectorized (force : Bool)
    (chapter_id chapter_title : String) (scenes : List Scene)
    (embeddings : List (List ℚ)) (h : embeddings.length ≠ scenes.length) :
    vectorize_chapter_model chapter_id chapter_title scenes embeddings
        = ⟨false, [], 0⟩ ∧
    run_step4_chapter "annotated_done" force true chapter_id chapter_title scenes
        (.ok embeddings)
      = ("vectorized", some ⟨false, [], 0⟩) := by
  have h1 : vectorize_chapter_model chapter_id chapter_title scenes embeddings
      = ⟨false, [], 0⟩ := by
    unfold vectorize_chapter_model
    rw [if_pos h]
  refine ⟨h1, ?_⟩
  cases force <;> simp [run_step4_chapter, should_run_step4, h1]

theorem step4_mismatch_still_marked_vectorized_witness :
    ([] : List (List ℚ)).length ≠ [({} : Scene)].length ∧
    (vectorize_chapter_model "chapter_0020" "第二十章" [{}] [] = ⟨false, [], 0⟩ ∧
      run_step4_chapter "annotated_done" false true "chapter_0020" "第二十章" [{}]
          (.ok [])
        = ("vectorized", some ⟨false, [], 0⟩)) :=
  ⟨by decide,
    step4_mismatch_still_marked_vectorized false "chapter_0020" "第二十章" [{}] []
      (by decide)⟩

/-! ## `services/pipeline_jobs.py` — `PipelineJobsService` -/

/-- A `pipeline_jobs` row / `PipelineJob` record (the JSON `result` and
the float `progress`/timestamps are irrelevant to the job-lifecycle
claims and elided). -/
structure PipelineJob where
  job_id : String
  novel_id : String
  owner_user_id : String := ""
  status : String := "queued"
  log_path : String := ""
  error : String := ""
deriving DecidableEq, Repr

/-- `status in {'queued', 'running'}`. -/
def liveStatus (status : String) : Bool :=
  status == "queued" || status == "running"

/-- The scheduler's shared state: the persisted jobs table, the in-memory
`_running_job_id`, and the single live worker thread, represented as the
job it runs plus its phase (0 = has not yet marked the job `running`,
1 = job marked `running`, terminal update still pending).  Worker steps
are serialised, which is the claim's "sequential operation" reading. -/
structure SchedulerState where
  jobs : List PipelineJob
  running_job_id : Option String
  worker : Option (String × Nat)
deriving DecidableEq, Repr

/-- The startup cleanup in `PipelineJobsService.__init__`: every persisted
job in `queued`/`running` is marked `failed` with the abort reason. -/
def scheduler_init (persisted : List PipelineJob) : SchedulerState :=
  { jobs := persisted.map (fun j =>
      if liveStatus j.status then
        { j with status := "failed", error := "job aborted due to service restart" }
      else j),
    running_job_id := none,
    worker := none }

/-- `SELECT * FROM pipeline_jobs WHERE id = ?`. -/
def findJob (jobs : List PipelineJob) (jid : String) : Option PipelineJob :=
  jobs.find? (fun j => j.job_id == jid)

/-- `UPDATE pipeline_jobs SET … WHERE id = ?`. -/
def updateJob (jobs : List PipelineJob) (jid : String)
    (f : PipelineJob → PipelineJob) : List PipelineJob :=
  jobs.map (fun j => if j.job_id == jid then f j else j)

/-- The failure modes of `start`: `ValueError` on an empty novel id,
`RuntimeError` when another job is live, `KeyError` when the tracked job
row is missing, and the primary-key violation of the `INSERT`. -/
inductive StartError where
  | emptyNovelId : StartError
  | busy : StartError
  | trackedJobMissing : StartError
  | duplicateJobId : StartError
deriving DecidableEq, Repr

/-- The tail of `start` after the busy check and id allocation: insert
the queued row, track it and spawn the worker thread.  A duplicate id
makes the `INSERT` raise after `_running_job_id` was already cleared. -/
def scheduler_insert_core (σ : SchedulerState)
    (novel_id owner_user_id log_path allocated : String) :
    SchedulerState × Except StartError PipelineJob :=
  if (findJob σ.jobs allocated).isSome then (σ, .error .duplicateJobId)
  else
    let job : PipelineJob :=
      { job_id := allocated, novel_id := pyStrip novel_id,
        owner_user_id := owner_user_id, log_path := log_path }
    ({ jobs := σ.jobs ++ [job], running_job_id := some allocated,
        worker := some (allocated, 0) }, .ok job)

/-- `allocated_job_id = str(job_id or "").strip() or uuid.uuid4().hex`,
then the insert; `fresh_id` stands for the generated uuid. -/
def scheduler_insert (σ : SchedulerState)
    (novel_id owner_user_id log_path job_id fresh_id : String) :
    SchedulerState × Except StartError PipelineJob :=
  scheduler_insert_core σ novel_id owner_user_id log_path
    (if pyStrip job_id = "" then fresh_id else pyStrip job_id)

/-- `PipelineJobsService.start`. -/
def scheduler_start (σ : SchedulerState)
    (novel_id owner_user_id log_path job_id fresh_id : String) :
    SchedulerState × Except StartError PipelineJob :=
  if pyStrip novel_id = "" then (σ, .error .emptyNovelId)
  else
    match σ.running_job_id with
    | some rid =>
        match findJob σ.jobs rid with
        | none => (σ, .error .trackedJobMissing)
        | some running =>
            if liveStatus running.status then (σ, .error .busy)
            else
              scheduler_insert { σ with running_job_id := none }
                novel_id owner_user_id log_path job_id fresh_id
    | none => scheduler_insert σ novel_id owner_user_id log_path job_id fresh_id

/-- First half of `_run_job_thread`: mark the worker's job `running`. -/
def scheduler_mark_running (σ : SchedulerState) : SchedulerState :=
  match σ.worker with
  | none => σ
  | some wp =>
      if wp.2 = 0 then
        { σ with
            jobs := updateJob σ.jobs wp.1 (fun j => { j with status := "running" }),
            worker := some (wp.1, 1) }
      else σ

/-- Second half of `_run_job_thread`: record the terminal status and, in
the `finally` block, clear `_running_job_id` when it still names this
job. -/
def scheduler_finish (σ : SchedulerState) (ok : Bool) (errMsg : String) :
    SchedulerState :=
  match σ.worker with
  | none => σ
  | some wp =>
      if wp.2 = 1 then
        { jobs := updateJob σ.jobs wp.1 (fun j =>
            if ok then { j with status := "succeeded" }
            else { j with status := "failed", error := errMsg }),
          running_job_id := if σ.running_job_id = some wp.1 then none else σ.running_job_id,
          worker := none }
      else σ

/-- One serialised scheduler event. -/
inductive SchedulerOp where
  | startOp (novel_id owner_user_id log_path job_id fresh_id : String) : SchedulerOp
  | markRunningOp : SchedulerOp
  | finishOp (ok : Bool) (errMsg : String) : SchedulerOp

/-- Apply one scheduler event. -/
def applySchedulerOp (σ : SchedulerState) : SchedulerOp → SchedulerState
  | .startOp n o l j f => (scheduler_start σ n o l j f).1
  | .markRunningOp => scheduler_mark_running σ
  | .finishOp ok e => scheduler_finish σ ok e

/-- The state after each event of a sequence. -/
def schedulerTrace (σ : SchedulerState) : List SchedulerOp → List SchedulerState
  | [] => []
  | op :: rest =>
      let σ1 := applySchedulerOp σ op
      σ1 :: schedulerTrace σ1 rest

/-- Number of jobs in status `queued` or `running`. -/
def liveCount (σ : SchedulerState) : Nat :=
  (σ.jobs.filter (fun j => liveStatus j.status)).length

/-- The scheduler invariant: job ids are unique, every live job is the
tracked one, and the worker (when present) runs the tracked job, whose
status matches the worker's phase. -/
def schedInv (σ : SchedulerState) : Prop :=
  (σ.jobs.map PipelineJob.job_id).Nodup ∧
  (∀ j ∈ σ.jobs, liveStatus j.status = true → σ.running_job_id = some j.job_id) ∧
  (match σ.worker with
    | none => True
    | some (jid, ph) =>
        σ.running_job_id = some jid ∧
        ∃ j ∈ σ.jobs, j.job_id = jid ∧
          j.status = (if ph = 0 then "queued" else "running") ∧ ph ≤ 1)

lemma jobId_inj {jobs : List PipelineJob}
    (h : (jobs.map PipelineJob.job_id).Nodup) {j1 j2 : PipelineJob}
    (h1 : j1 ∈ jobs) (h2 : j2 ∈ jobs) (he : j1.job_id = j2.job_id) : j1 = j2 :=
  List.inj_on_of_nodup_map h h1 h2 he

lemma findJob_eq {jobs : List PipelineJob} {jid : String} {j : PipelineJob}
    (h : findJob jobs jid = some j) : j ∈ jobs ∧ j.job_id = jid := by
  refine ⟨List.mem_of_find?_eq_some h, ?_⟩
  have := List.find?_some h
  simpa using this

lemma findJob_none {jobs : List PipelineJob} {jid : String}
    (h : findJob jobs jid = none) : ∀ j ∈ jobs, j.job_id ≠ jid := by
  intro j hj
  have := List.find?_eq_none.mp h j hj
  simpa using this

lemma updateJob_map_id (jobs : List PipelineJob) (jid : String)
    (f : PipelineJob → PipelineJob) (hf : ∀ j, (f j).job_id = j.job_id) :
    (updateJob jobs jid f).map PipelineJob.job_id = jobs.map PipelineJob.job_id := by
  unfold updateJob
  rw [List.map_map]
  apply List.map_congr_left
  intro j _
  by_cases h : j.job_id = jid <;> simp [h, hf]

lemma nodup_all_eq_length_le_one {l : List String} {a : String}
    (hn : l.Nodup) (ha : ∀ x ∈ l, x = a) : l.length ≤ 1 := by
  match l with
  | [] => simp
  | [x] => simp
  | x :: y :: rest =>
      exfalso
      have hx : x = a := ha x (by simp)
      have hy : y = a := ha y (by simp)
      rw [List.nodup_cons] at hn
      exact hn.1 (by rw [hx, ← hy]; simp)

lemma schedInv_liveCount_le_one (σ : SchedulerState) (h : schedInv σ) :
    liveCount σ ≤ 1 := by
  obtain ⟨h1, h2, _⟩ := h
  unfold liveCount
  set l := σ.jobs.filter (fun j => liveStatus j.status) with hl
  have hsub : List.Sublist l σ.jobs := List.filter_sublist σ.jobs
  have hnodup : (l.map PipelineJob.job_id).Nodup := (hsub.map _).nodup h1
  cases htr : σ.running_job_id with
  | none =>
      have : l = [] := by
        apply List.eq_nil_iff_forall_not_mem.mpr
        intro j hj
        have hmem := List.mem_of_mem_filter hj
        have hlive := List.of_mem_filter hj
        have := h2 j hmem (by simpa using hlive)
        rw [htr] at this
        cases this
      rw [this]
      simp
  | some rid =>
      have hall : ∀ x ∈ l.map PipelineJob.job_id, x = rid := by
        intro x hx
        obtain ⟨j, hj, rfl⟩ := List.mem_map.mp hx
        have hmem := List.mem_of_mem_filter hj
        have hlive := List.of_mem_filter hj
        have := h2 j hmem (by simpa using hlive)
        rw [htr] at this
        exact (Option.some_inj.mp this).symm
      have := nodup_all_eq_length_le_one hnodup hall
      simpa using this

lemma schedInv_init (persisted : List PipelineJob)
    (h : (persisted.map PipelineJob.job_id).Nodup) :
    schedInv (scheduler_init persisted) := by
  refine ⟨?_, ?_, trivial⟩
  · show ((persisted.map _).map PipelineJob.job_id).Nodup
    rw [List.map_map]
    have heq : persisted.map (PipelineJob.job_id ∘ fun j =>
        if liveStatus j.status then
          { j with status := "failed", error := "job aborted due to service restart" }
        else j) = persisted.map PipelineJob.job_id := by
      apply List.map_congr_left
      intro j _
      by_cases h0 : liveStatus j.status = true <;> simp [h0]
    rw [heq]
    exact h
  · intro j hj hlive
    exfalso
    obtain ⟨j0, hj0, rfl⟩ := List.mem_map.mp hj
    by_cases h0 : liveStatus j0.status = true
    · rw [if_pos h0] at hlive
      simp [liveStatus] at hlive
    · rw [if_neg h0] at hlive
      exact h0 hlive

lemma schedInv_insert_core (σ : SchedulerState)
    (novel_id owner_user_id log_path allocated : String)
    (h1 : (σ.jobs.map PipelineJob.job_id).Nodup)
    (h2 : ∀ j ∈ σ.jobs, liveStatus j.status = false)
    (h4 : σ.worker = none) :
    schedInv (scheduler_insert_core σ novel_id owner_user_id log_path allocated).1 := by
  unfold scheduler_insert_core
  split
  · refine ⟨h1, ?_, ?_⟩
    · intro j hj hl
      rw [h2 j hj] at hl
      cases hl
    · rw [h4]
      trivial
  · rename_i hdup
    have hnone : findJob σ.jobs allocated = none := by
      cases hfind : findJob σ.jobs allocated with
      | none => rfl
      | some j => exact absurd (by rw [hfind]; rfl) hdup
    have hnotin := findJob_none hnone
    refine ⟨?_, ?_, ?_⟩
    · show ((σ.jobs ++ [_]).map PipelineJob.job_id).Nodup
      rw [List.map_append]
      refine List.Nodup.append h1 (by simp) ?_
      intro x hx hx2
      simp only [List.map_cons, List.map_nil, List.mem_singleton] at hx2
      obtain ⟨j, hj, rfl⟩ := List.mem_map.mp hx
      exact hnotin j hj hx2
    · intro j hj hl
      rcases List.mem_append.mp hj with hmem | hmem
      · rw [h2 j hmem] at hl
        cases hl
      · simp only [List.mem_singleton] at hmem
        subst hmem
        rfl
    · refine ⟨rfl, ?_⟩
      exact ⟨_, List.mem_append_right _ (List.mem_singleton_self _), rfl, rfl, by omega⟩

lemma schedInv_insert (σ : SchedulerState)
    (novel_id owner_user_id log_path job_id fresh_id : String)
    (h1 : (σ.jobs.map PipelineJob.job_id).Nodup)
    (h2 : ∀ j ∈ σ.jobs, liveStatus j.status = false)
    (h4 : σ.worker = none) :
    schedInv (scheduler_insert σ novel_id owner_user_id log_path job_id fresh_id).1 :=
  schedInv_insert_core σ novel_id owner_user_id log_path _ h1 h2 h4

lemma liveStatus_of_phase (ph : Nat) :
    liveStatus (if ph = 0 then "queued" else "running") = true := by
  by_cases h : ph = 0 <;> simp [h, liveStatus]

lemma schedInv_start (σ : SchedulerState) (n o l jb f : String) (h : schedInv σ) :
    schedInv (scheduler_start σ n o l jb f).1 := by
  obtain ⟨h1, h2, h3⟩ := h
  unfold scheduler_start
  split
  · exact ⟨h1, h2, h3⟩
  · cases htr : σ.running_job_id with
    | none =>
        dsimp only
        apply schedInv_insert σ n o l jb f h1
        · intro j hj
          cases hb : liveStatus j.status with
          | false => rfl
          | true =>
              exfalso
              have := h2 j hj hb
              rw [htr] at this
              cases this
        · cases hw : σ.worker with
          | none => rfl
          | some p =>
              exfalso
              rw [hw] at h3
              obtain ⟨hwt, _⟩ := h3
              rw [htr] at hwt
              cases hwt
    | some rid =>
        dsimp only
        cases hfind : findJob σ.jobs rid with
        | none => exact ⟨h1, h2, h3⟩
        | some running =>
            dsimp only
            obtain ⟨hrmem, hrid⟩ := findJob_eq hfind
            by_cases hlv : liveStatus running.status = true
            · rw [if_pos hlv]
              exact ⟨h1, h2, h3⟩
            · rw [if_neg hlv]
              have hnolive : ∀ j ∈ σ.jobs, liveStatus j.status = false := by
                intro j hj
                cases hb : liveStatus j.status with
                | false => rfl
                | true =>
                    exfalso
                    have hid := h2 j hj hb
                    rw [htr] at hid
                    have hje : j = running :=
                      jobId_inj h1 hj hrmem (by rw [hrid, Option.some_inj.mp hid])
                    rw [hje] at hb
                    exact hlv hb
              refine schedInv_insert
                { jobs := σ.jobs, running_job_id := none, worker := σ.worker }
                n o l jb f h1 hnolive ?_
              show σ.worker = none
              cases hw : σ.worker with
              | none => rfl
              | some p =>
                  exfalso
                  obtain ⟨jid, ph⟩ := p
                  rw [hw] at h3
                  obtain ⟨hwt, j0, hj0, hid0, hstat0, _⟩ := h3
                  have hlive0 : liveStatus j0.status = true := by
                    rw [hstat0]
                    exact liveStatus_of_phase ph
                  rw [hnolive j0 hj0] at hlive0
                  cases hlive0

lemma schedInv_mark_running (σ : SchedulerState) (h : schedInv σ) :
    schedInv (scheduler_mark_running σ) := by
  obtain ⟨h1, h2, h3⟩ := h
  unfold scheduler_mark_running
  cases hw : σ.worker with
  | none => exact ⟨h1, h2, h3⟩
  | some p =>
      obtain ⟨jid, ph⟩ := p
      rw [hw] at h3
      obtain ⟨hwt, j0, hj0, hid0, hstat0, hph⟩ := h3
      dsimp only
      by_cases hpz : ph = 0
      · rw [if_pos hpz]
        rw [if_pos hpz] at hstat0
        refine ⟨?_, ?_, ?_⟩
        · rw [updateJob_map_id σ.jobs jid (fun j => { j with status := "running" })
            (fun j => rfl)]
          exact h1
        · intro j' hj' hl
          obtain ⟨jx, hjx, rfl⟩ := List.mem_map.mp hj'
          by_cases hxid : jx.job_id = jid
          · rw [if_pos (by simpa using hxid)]
            show σ.running_job_id = _
            rw [hwt]
            simp [hxid]
          · rw [if_neg (by simpa using hxid)]
            rw [if_neg (by simpa using hxid)] at hl
            exact h2 jx hjx hl
        · refine ⟨hwt, ?_⟩
          refine ⟨{ j0 with status := "running" }, ?_, hid0, by simp, by omega⟩
          refine List.mem_map.mpr ⟨j0, hj0, ?_⟩
          rw [if_pos (by simpa using hid0)]
      · rw [if_neg hpz]
        refine ⟨h1, h2, ?_⟩
        rw [hw]
        exact ⟨hwt, j0, hj0, hid0, hstat0, hph⟩

lemma schedInv_finish (σ : SchedulerState) (ok : Bool) (e : String) (h : schedInv σ) :
    schedInv (scheduler_finish σ ok e) := by
  obtain ⟨h1, h2, h3⟩ := h
  unfold scheduler_finish
  cases hw : σ.worker with
  | none => exact ⟨h1, h2, h3⟩
  | some p =>
      obtain ⟨jid, ph⟩ := p
      rw [hw] at h3
      obtain ⟨hwt, j0, hj0, hid0, hstat0, hph⟩ := h3
      dsimp only
      by_cases hp1 : ph = 1
      · rw [if_pos hp1]
        refine ⟨?_, ?_, trivial⟩
        · rw [updateJob_map_id σ.jobs jid
            (fun j => if ok then { j with status := "succeeded" }
              else { j with status := "failed", error := e })
            (fun j => by cases ok <;> rfl)]
          exact h1
        · intro j' hj' hl
          exfalso
          obtain ⟨jx, hjx, rfl⟩ := List.mem_map.mp hj'
          by_cases hxid : jx.job_id = jid
          · rw [if_pos (by simpa using hxid)] at hl
            cases ok <;> simp [liveStatus] at hl
          · rw [if_neg (by simpa using hxid)] at hl
            have hid := h2 jx hjx hl
            rw [hwt] at hid
            exact hxid (Option.some_inj.mp hid).symm
      · rw [if_neg hp1]
        refine ⟨h1, h2, ?_⟩
        rw [hw]
        exact ⟨hwt, j0, hj0, hid0, hstat0, hph⟩

lemma schedInv_apply (σ : SchedulerState) (op : SchedulerOp) (h : schedInv σ) :
    schedInv (applySchedulerOp σ op) := by
  cases op with
  | startOp n o l jb f => exact schedInv_start σ n o l jb f h
  | markRunningOp => exact schedInv_mark_running σ h
  | finishOp ok e => exact schedInv_finish σ ok e h

lemma scheduler_start_busy (σ : SchedulerState)
    (n o l jb f rid : String) (running : PipelineJob)
    (hn : pyStrip n ≠ "") (ht : σ.running_job_id = some rid)
    (hf : findJob σ.jobs rid = some running)
    (hl : liveStatus running.status = true) :
    scheduler_start σ n o l jb f = (σ, .error .busy) := by
  unfold scheduler_start
  rw [if_neg hn, ht]
  dsimp only
  rw [hf]
  dsimp only
  rw [if_pos hl]

lemma scheduler_init_marks_aborted (persisted : List PipelineJob) :
    (∀ jb ∈ persisted, liveStatus jb.status = true →
      ({ jb with status := "failed", error := "job aborted due to service restart" }
          : PipelineJob) ∈ (scheduler_init persisted).jobs) ∧
    (∀ jb ∈ (scheduler_init persisted).jobs, liveStatus jb.status = false) := by
  constructor
  · intro jb hjb hl
    refine List.mem_map.mpr ⟨jb, hjb, ?_⟩
    rw [if_pos hl]
  · intro jb hjb
    obtain ⟨j0, hj0, rfl⟩ := List.mem_map.mp hjb
    by_cases h0 : liveStatus j0.status = true
    · rw [if_pos h0]
      rfl
    · rw [if_neg h0]
      cases hb : liveStatus j0.status with
      | false => rfl
      | true => exact absurd hb h0

/-- C7: a `Start` issued while the tracked job is still `queued`/`running`
returns the busy error and leaves the state (hence the jobs table)
unchanged; the constructor moves every persisted `queued`/`running` job to
`failed` with the abort reason, leaving no live job; and from that initial
state, after every serialised scheduler event (starts and the worker's
running/terminal transitions) at most one job is in status
`queued`/`running`. -/
theorem scheduler_at_most_one_live_job
    (persisted : List PipelineJob) (ops : List SchedulerOp) (σ : SchedulerState)
    (novel_id owner_user_id log_path job_id fresh_id rid : String)
    (running : PipelineJob)
    (hNodup : (persisted.map PipelineJob.job_id).Nodup) :
    (pyStrip novel_id ≠ "" → σ.running_job_id = some rid →
      findJob σ.jobs rid = some running → liveStatus running.status = true →
      scheduler_start σ novel_id owner_user_id log_path job_id fresh_id
        = (σ, .error .busy)) ∧
    (∀ jb ∈ persisted, liveStatus jb.status = true →
      ({ jb with status := "failed", error := "job aborted due to service restart" }
          : PipelineJob) ∈ (scheduler_init persisted).jobs) ∧
    (∀ jb ∈ (scheduler_init persisted).jobs, liveStatus jb.status = false) ∧
    liveCount (scheduler_init persisted) ≤ 1 ∧
    (∀ σ1 ∈ schedulerTrace (scheduler_init persisted) ops, liveCount σ1 ≤ 1) := by
  refine ⟨fun hn ht hf hl =>
      scheduler_start_busy σ novel_id owner_user_id log_path job_id fresh_id rid running
        hn ht hf hl,
    (scheduler_init_marks_aborted persisted).1,
    (scheduler_init_marks_aborted persisted).2, ?_, ?_⟩
  · exact schedInv_liveCount_le_one _ (schedInv_init persisted hNodup)
  · have key : ∀ (l : List SchedulerOp) (σ0 : SchedulerState), schedInv σ0 →
        ∀ σ1 ∈ schedulerTrace σ0 l, liveCount σ1 ≤ 1 := by
      intro l
      induction l with
      | nil => intro σ0 _ σ1 h1; cases h1
      | cons op rest ih =>
          intro σ0 h0 σ1 h1
          have hinv1 : schedInv (applySchedulerOp σ0 op) := schedInv_apply σ0 op h0
          simp only [schedulerTrace, List.mem_cons] at h1
          rcases h1 with h1 | h1
          · subst h1
            exact schedInv_liveCount_le_one _ hinv1
          · exact ih _ hinv1 _ h1
    exact key ops _ (schedInv_init persisted hNodup)

/-- A persisted job left `running` by a crashed process. -/
def demoJobA : PipelineJob :=
  { job_id := "job-a", novel_id := "n1", status := "running" }

/-- A state with a live tracked job, used to exercise the busy error. -/
def demoBusyState : SchedulerState :=
  { jobs := [{ job_id := "job-b", novel_id := "n1", status := "queued" }],
    running_job_id := some "job-b", worker := some ("job-b", 0) }

theorem scheduler_at_most_one_live_job_witness :
    ([demoJobA].map PipelineJob.job_id).Nodup ∧
    ((pyStrip "n2" ≠ "" → demoBusyState.running_job_id = some "job-b" →
        findJob demoBusyState.jobs "job-b"
            = some { job_id := "job-b", novel_id := "n1", status := "queued" } →
        liveStatus ({ job_id := "job-b", novel_id := "n1", status := "queued" } : PipelineJob).status = true →
        scheduler_start demoBusyState "n2" "u1" "log" "" "fresh1"
          = (demoBusyState, .error .busy)) ∧
      (∀ jb ∈ [demoJobA], liveStatus jb.status = true →
        ({ jb with status := "failed", error := "job aborted due to service restart" }
            : PipelineJob) ∈ (scheduler_init [demoJobA]).jobs) ∧
      (∀ jb ∈ (scheduler_init [demoJobA]).jobs, liveStatus jb.status = false) ∧
      liveCount (scheduler_init [demoJobA]) ≤ 1 ∧
      (∀ σ1 ∈ schedulerTrace (scheduler_init [demoJobA])
          [.startOp "n2" "u1" "log" "" "fresh1", .markRunningOp, .finishOp true ""],
        liveCount σ1 ≤ 1)) ∧
    scheduler_start demoBusyState "n2" "u1" "log" "" "fresh1"
      = (demoBusyState, .error .busy) ∧
    (scheduler_init [demoJobA]).jobs
      = [{ demoJobA with status := "failed", error := "job aborted due to service restart" }] :=
  ⟨by decide,
    scheduler_at_most_one_live_job [demoJobA]
      [.startOp "n2" "u1" "log" "" "fresh1", .markRunningOp, .finishOp true ""]
      demoBusyState "n2" "u1" "log" "" "fresh1" "job-b"
      { job_id := "job-b", novel_id := "n1", status := "queued" } (by decide),
    (scheduler_at_most_one_live_job [demoJobA]
        [.startOp "n2" "u1" "log" "" "fresh1", .markRunningOp, .finishOp true ""]
        demoBusyState "n2" "u1" "log" "" "fresh1" "job-b"
        { job_id := "job-b", novel_id := "n1", status := "queued" } (by decide)).1
      (by decide) (by decide) (by decide) (by decide),
    by decide⟩
